import Mathlib

/-!
Shallow embedding of the winkb/tcp repository (Go), covering:

* `src/mytcp/tcp_server.go` — the TCP server: connection id allocation
  (`getConnAutoIncId`), shutdown coordination (`Shutdown`, the `stop` field),
  the per-connection task triad (`LoopRead`, `ConsumeInput`, `ConsumeOutput`),
  the close path (`handelReadClose`, `handelReceive`) and the constructor
  (`NewTcpServer`).
* `src/unnamed/part_000` — the server `main`'s `OnReceive` routing callback and
  the `routes` table built in `init`.

Go machine integers are modelled as `Nat` with explicit `% 2^32` where the
source uses `uint32`.  Go channels in this repository are unbuffered, so a
send is a rendezvous: it completes only when another task executes a matching
receive.  The per-connection concurrency is modelled as a labelled transition
system (`ConnSys`, `step`): a scheduler chooses a `Label` each step, and a
label whose guard is not enabled leaves the state unchanged (the task is
blocked).
-/

namespace TcpRepo

/-! ## Message router (src/unnamed/part_000)

`RouteInfo` mirrors the Go struct `RouteInfo { Handle RouteHandle; Info any }`.
The handler function is identified by a numeric tag (`handlerId`); `hasInfo`
records whether the `Info` prototype field is non-nil (`Info != nil`). -/

structure RouteInfo where
  handlerId : Nat
  hasInfo : Bool
  deriving DecidableEq

/-- The route table built in `init` of src/unnamed/part_000:
`routes[0]` is the default handler with `Info: nil`, and
`routes[100]` is the shutdown handler with `Info: &ShutdownReq{}`.
Handlers are tagged by their action code. -/
def routes : Nat → Option RouteInfo := fun act =>
  if act = 0 then some ⟨0, false⟩
  else if act = 100 then some ⟨100, true⟩
  else none

/-- An inbound message as seen by the router: `act` models `msg.GetAct()`
(a `uint16` action code) and `decodeOk` models whether `msg.ToStruct`
succeeds on this message's payload. -/
structure Msg where
  act : Nat
  decodeOk : Bool
  deriving DecidableEq

/-- Observable outcome of one `OnReceive` dispatch: the list of handler
invocations `(handlerId, wasDecoded)` (each element is one call of
`hv.Handle`), whether the "not found handle" miss was logged, and whether a
decode error was logged. -/
structure DispatchLog where
  calls : List (Nat × Bool)
  missLogged : Bool
  decodeErrLogged : Bool
  deriving DecidableEq

/-- The server `OnReceive` callback body of src/unnamed/part_000 lines
158–179: look up `msg.GetAct()` in `routes`; on a miss, log and fall back to
`routes[0]`; if the chosen route's `Info` is non-nil, decode the payload into
it and on decode failure log and return without calling the handler;
otherwise call the handler once.  (The inner `none` arm is unreachable for
the concrete table since `routes 0` is registered; in Go a missing default
route would nil-dereference `hv`.) -/
def onReceive (msg : Msg) : DispatchLog :=
  match routes msg.act with
  | some hv =>
      if hv.hasInfo then
        if msg.decodeOk then ⟨[(hv.handlerId, true)], false, false⟩
        else ⟨[], false, true⟩
      else ⟨[(hv.handlerId, false)], false, false⟩
  | none =>
      match routes 0 with
      | some hv =>
          if hv.hasInfo then
            if msg.decodeOk then ⟨[(hv.handlerId, true)], true, false⟩
            else ⟨[], true, true⟩
          else ⟨[(hv.handlerId, false)], true, false⟩
      | none => ⟨[], true, false⟩

/-! ## Connection id allocation (src/mytcp/tcp_server.go lines 88–97)

`getConnAutoIncId` is a CAS retry loop on the `uint32` field `lastId`: load
the current value, add 1 (Go `uint32` arithmetic wraps modulo `2^32`), and
`CompareAndSwap`.  Each *successful* CAS is atomic, so under any concurrent
interleaving the successful iterations linearize into a sequence of atomic
increments; we model one successful call as a function from the counter value
to the returned id and the new counter value. -/

def getConnAutoIncId (lastId : Nat) : Nat × Nat :=
  let val := (lastId + 1) % 4294967296
  (val, val)

/-- Counter value after `n` successful calls to `getConnAutoIncId`, starting
from the constructor's `lastId: 0`. -/
def lastIdAfter : Nat → Nat
  | 0 => 0
  | n + 1 => (getConnAutoIncId (lastIdAfter n)).2

/-- The id returned by the `(k+1)`-th call to `getConnAutoIncId` (calls are
numbered from `k = 0`). -/
def idAt (k : Nat) : Nat := (getConnAutoIncId (lastIdAfter k)).1

theorem lastIdAfter_eq (n : Nat) : lastIdAfter n = n % 4294967296 := by
  induction n with
  | zero => rfl
  | succ n ih =>
      show (getConnAutoIncId (lastIdAfter n)).2 = (n + 1) % 4294967296
      rw [ih]
      show ((n % 4294967296) + 1) % 4294967296 = (n + 1) % 4294967296
      omega

theorem idAt_eq (k : Nat) : idAt k = (k + 1) % 4294967296 := by
  show (getConnAutoIncId (lastIdAfter k)).1 = (k + 1) % 4294967296
  rw [lastIdAfter_eq]
  show ((k % 4294967296) + 1) % 4294967296 = (k + 1) % 4294967296
  omega

/-! ## Server state, constructor, close path and Shutdown
(src/mytcp/tcp_server.go)

Callbacks are modelled as `Option` functions (`none` = Go `nil`); invoking a
callback returns the list of effects it emits, and the default no-op
callbacks installed by `NewTcpServer` emit `[]`.  Each connection carries a
`closeCount` ghost counter for the number of `conn.Close()` calls, and the
server a `listenerCloseCount` for `listener.Close()` calls. -/

structure TcpConnSock where
  id : Nat
  closeCount : Nat
  deriving DecidableEq

structure tcpServer where
  closeCallback : Option (Nat → Bool → Bool → List Nat)
  receiveCallback : Option (Nat → List Nat → List Nat)
  addr : String
  conns : List TcpConnSock
  lastId : Nat
  stop : Nat
  listenerCloseCount : Nat

/-- `NewTcpServer` (src/mytcp/tcp_server.go lines 49–62): installs non-nil
no-op callbacks for both slots, `addr = ":" + port`, empty connection map,
`lastId = 0`, `stop = 0`. -/
def NewTcpServer (port : String) : tcpServer :=
  { closeCallback := some (fun _ _ _ => [])
    receiveCallback := some (fun _ _ => [])
    addr := ":" ++ port
    conns := []
    lastId := 0
    stop := 0
    listenerCloseCount := 0 }

/-- The callback invocation inside `handelReceive` (lines 189–193): guarded
by `receiveCallback != nil`; `none` means the call is skipped, `some r`
means the callback ran and emitted `r`. -/
def handelReceiveCB (l : tcpServer) (connId : Nat) (bt : List Nat) : Option (List Nat) :=
  l.receiveCallback.map (fun f => f connId bt)

/-- The callback invocation inside `handelReadClose` (lines 182–187), after
`close(conn.waitConn)`: guarded by `closeCallback != nil`. -/
def handelReadCloseCB (l : tcpServer) (connId : Nat) (isServer isClient : Bool) : Option (List Nat) :=
  l.closeCallback.map (fun f => f connId isServer isClient)

/-- `Shutdown` (src/mytcp/tcp_server.go lines 195–213), executed atomically
under `l.lock`: if `stop != 0` return immediately; otherwise set `stop = 2`,
call `Close()` on every registered connection's socket, and close the
listener. -/
def Shutdown (l : tcpServer) : tcpServer :=
  if l.stop ≠ 0 then l
  else
    { l with
      stop := 2
      conns := l.conns.map (fun c => { c with closeCount := c.closeCount + 1 })
      listenerCloseCount := l.listenerCloseCount + 1 }

theorem Shutdown_eq_of_stopped (l : tcpServer) (h : l.stop ≠ 0) : Shutdown l = l := by
  simp [Shutdown, h]

theorem Shutdown_stop_ne_zero (l : tcpServer) : (Shutdown l).stop ≠ 0 := by
  by_cases h : l.stop = 0
  · simp [Shutdown, h]
  · rw [Shutdown_eq_of_stopped l h]
    exact h

theorem Shutdown_Shutdown (l : tcpServer) : Shutdown (Shutdown l) = Shutdown l :=
  Shutdown_eq_of_stopped (Shutdown l) (Shutdown_stop_ne_zero l)

/-! ## The per-connection task triad as a labelled transition system
(src/mytcp/tcp_server.go lines 114–180 and 215–217)

One accepted connection runs three goroutines sharing the unbuffered channels
`input`, `output` and `waitConn`:

* `LoopRead` (lines 152–180), the Reader: program counter `ReaderPC`.
  `rSelect` is the top of its `select`; `rBlockedSend f` means it is blocked
  in the unbuffered send `conn.output <- bt` at line 177; `rDone` means the
  goroutine returned.
* `ConsumeOutput` (lines 114–125), the Dispatcher: `dSelect` at its `select`,
  `dDone` returned.  On receiving from `output` it calls `handelReceive`
  synchronously; `dispatched` records those frames in order.
* `ConsumeInput` (lines 127–150), the Sender: `sSelect` at its `select`,
  `sGotMsg f` after receiving `f` from `input`, `sDone` returned.

Because the channels are unbuffered, a receive case of a `select` is ready
only when some *other* goroutine is blocked in a matching send; the pending
send on `output` is exactly the Reader's `rBlockedSend` state
(`outputSendPending`), since line 177 is the only send on `output` in the
repository.  `pendingSend` models one caller blocked in `Send`'s
`conn.input <- v` (line 216).  `close(conn.waitConn)` (line 183) makes
`<-conn.waitConn` ready forever; `waitCloseOps` counts the `close` calls and
`closes` records the close-callback invocations `(isServer, isClient)`.

A scheduler supplies a list of `Label`s; `step` applies a label's effect when
its guard (the Go readiness condition) holds and otherwise leaves the state
unchanged (the goroutine stays blocked).  Socket writes in `ConsumeInput` are
modelled as succeeding (`writes` records them); the write-error branch is not
needed by any claim. -/

/-- A raw byte frame. -/
abbrev Frame := List Nat

/-- Result of one `conn.conn.Read` call in `LoopRead`: a successful read of
a frame, `io.EOF`, a `*net.OpError`, or any other error. -/
inductive ReadResult
  | data (f : Frame)
  | eof
  | opErr
  | otherErr
  deriving DecidableEq

inductive ReaderPC
  | rSelect
  | rBlockedSend (f : Frame)
  | rDone
  deriving DecidableEq

inductive DispatcherPC
  | dSelect
  | dDone
  deriving DecidableEq

inductive SenderPC
  | sSelect
  | sGotMsg (f : Frame)
  | sDone
  deriving DecidableEq

structure ConnSys where
  reads : List ReadResult
  readerPC : ReaderPC
  dispatcherPC : DispatcherPC
  senderPC : SenderPC
  waitConnClosed : Bool
  waitCloseOps : Nat
  closes : List (Bool × Bool)
  dispatched : List Frame
  readFrames : List Frame
  drains : Nat
  pendingSend : Option Frame
  writes : List Frame
  lockHeld : Bool
  stop : Nat
  deriving DecidableEq

/-- The pending unbuffered send on `conn.output`: line 177
(`conn.output <- bt` in `LoopRead`) is the only send on `output` in the
repository, so a send is pending exactly when the Reader is blocked there. -/
def outputSendPending (s : ConnSys) : Option Frame :=
  match s.readerPC with
  | .rBlockedSend f => some f
  | _ => none

/-- Readiness of the `case <-conn.output:` branch of `LoopRead`'s `select`
(line 157): the Reader must be at its `select` and a send on `output` must be
pending from another goroutine.  The only sender on `output` is the Reader
itself, so both conjuncts can never hold at once. -/
def drainEnabled (s : ConnSys) : Bool :=
  match s.readerPC, outputSendPending s with
  | .rSelect, some _ => true
  | _, _ => false

/-- Scheduler labels: which goroutine takes its next enabled step. -/
inductive Label
  | readerRead
  | readerDrain
  | readerWaitExit
  | dispatcherRecv
  | dispatcherExit
  | senderRecv
  | senderWork
  | senderExit
  | sendCall (f : Frame)
  deriving DecidableEq

/-- The `default:` branch of `LoopRead`'s `select` (lines 158–177): taken
when no other case is ready; performs `conn.conn.Read` and either blocks in
the send of the frame, fires the close path (`handelReadClose`, which does
`close(conn.waitConn)` then invokes the close callback) on `io.EOF` with
`(isServer, isClient) = (false, true)` or on `*net.OpError` with
`(true, false)`, or logs and returns on any other error. -/
def readerReadStep (s : ConnSys) : ConnSys :=
  if s.readerPC = ReaderPC.rSelect ∧ s.waitConnClosed = false ∧ outputSendPending s = none then
    match s.reads with
    | [] => s
    | ReadResult.data f :: rest =>
        { s with reads := rest, readerPC := ReaderPC.rBlockedSend f,
                 readFrames := s.readFrames ++ [f] }
    | ReadResult.eof :: rest =>
        { s with reads := rest, readerPC := ReaderPC.rDone, waitConnClosed := true,
                 waitCloseOps := s.waitCloseOps + 1, closes := s.closes ++ [(false, true)] }
    | ReadResult.opErr :: rest =>
        { s with reads := rest, readerPC := ReaderPC.rDone, waitConnClosed := true,
                 waitCloseOps := s.waitCloseOps + 1, closes := s.closes ++ [(true, false)] }
    | ReadResult.otherErr :: rest =>
        { s with reads := rest, readerPC := ReaderPC.rDone }
  else s

/-- The `case <-conn.output:` branch of `LoopRead`'s `select` (line 157):
would consume a frame from `output` inside the Reader.  Guarded by
`drainEnabled`, which is provably never true. -/
def readerDrainStep (s : ConnSys) : ConnSys :=
  if drainEnabled s then
    { s with drains := s.drains + 1, readerPC := ReaderPC.rSelect }
  else s

/-- The `case <-conn.waitConn:` branch of `LoopRead`'s `select` (line 155):
ready once `waitConn` is closed; the Reader returns. -/
def readerWaitExitStep (s : ConnSys) : ConnSys :=
  if s.readerPC = ReaderPC.rSelect ∧ s.waitConnClosed = true then
    { s with readerPC := ReaderPC.rDone }
  else s

/-- The `case msg := <-conn.output:` branch of `ConsumeOutput` (lines
119–123): rendezvous with the Reader's blocked send; the frame is passed to
`handelReceive` and the Reader's send completes, resuming its loop. -/
def dispatcherRecvStep (s : ConnSys) : ConnSys :=
  match s.dispatcherPC, s.readerPC with
  | DispatcherPC.dSelect, ReaderPC.rBlockedSend f =>
      { s with readerPC := ReaderPC.rSelect, dispatched := s.dispatched ++ [f] }
  | _, _ => s

/-- The `case <-conn.waitConn:` branch of `ConsumeOutput` (line 117). -/
def dispatcherExitStep (s : ConnSys) : ConnSys :=
  if s.dispatcherPC = DispatcherPC.dSelect ∧ s.waitConnClosed = true then
    { s with dispatcherPC := DispatcherPC.dDone }
  else s

/-- The `case msg := <-conn.input:` branch of `ConsumeInput` (line 132):
rendezvous with a caller blocked in `Send`. -/
def senderRecvStep (s : ConnSys) : ConnSys :=
  match s.senderPC, s.pendingSend with
  | SenderPC.sSelect, some f =>
      { s with pendingSend := none, senderPC := SenderPC.sGotMsg f }
  | _, _ => s

/-- The body of `ConsumeInput`'s receive case (lines 133–147): `l.lock.Lock()`
(blocks while the mutex is held); if `l.stop != 0`, `continue` — skipping the
write and *not* executing `l.lock.Unlock()`, so the lock stays held;
otherwise write the frame to the socket and unlock.  Writes are modelled as
succeeding. -/
def senderWorkStep (s : ConnSys) : ConnSys :=
  match s.senderPC with
  | SenderPC.sGotMsg f =>
      if s.lockHeld then s
      else if s.stop ≠ 0 then
        { s with lockHeld := true, senderPC := SenderPC.sSelect }
      else
        { s with writes := s.writes ++ [f], senderPC := SenderPC.sSelect }
  | _ => s

/-- The `case <-conn.waitConn:` branch of `ConsumeInput` (line 130). -/
def senderExitStep (s : ConnSys) : ConnSys :=
  if s.senderPC = SenderPC.sSelect ∧ s.waitConnClosed = true then
    { s with senderPC := SenderPC.sDone }
  else s

/-- A caller entering `Send` (line 216, `conn.input <- v`): the unbuffered
send becomes pending; it completes only by rendezvous in `senderRecvStep`.
One in-flight caller is modelled. -/
def sendCallStep (f : Frame) (s : ConnSys) : ConnSys :=
  if s.pendingSend = none then { s with pendingSend := some f } else s

def step (s : ConnSys) : Label → ConnSys
  | Label.readerRead => readerReadStep s
  | Label.readerDrain => readerDrainStep s
  | Label.readerWaitExit => readerWaitExitStep s
  | Label.dispatcherRecv => dispatcherRecvStep s
  | Label.dispatcherExit => dispatcherExitStep s
  | Label.senderRecv => senderRecvStep s
  | Label.senderWork => senderWorkStep s
  | Label.senderExit => senderExitStep s
  | Label.sendCall f => sendCallStep f s

def run (s : ConnSys) (sch : List Label) : ConnSys := sch.foldl step s

/-- State of a freshly accepted connection (src/mytcp/tcp_server.go lines
249–268): all three goroutines at the top of their loops, fresh unbuffered
channels, `waitConn` open; `reads` is the sequence of results the socket will
deliver to `conn.conn.Read`, and `stop` the server's shutdown field. -/
def initConn (reads : List ReadResult) (stop : Nat) : ConnSys :=
  { reads := reads
    readerPC := ReaderPC.rSelect
    dispatcherPC := DispatcherPC.dSelect
    senderPC := SenderPC.sSelect
    waitConnClosed := false
    waitCloseOps := 0
    closes := []
    dispatched := []
    readFrames := []
    drains := 0
    pendingSend := none
    writes := []
    lockHeld := false
    stop := stop }

theorem drainEnabled_false (s : ConnSys) : drainEnabled s = false := by
  unfold drainEnabled outputSendPending
  cases s.readerPC <;> rfl

/-- Invariant of the connection system tying the close-signal ghost counters
and the inbound-frame bookkeeping together. -/
def SysInv (s : ConnSys) : Prop :=
  s.waitCloseOps = (if s.waitConnClosed then 1 else 0) ∧
  s.closes.length = s.waitCloseOps ∧
  s.readFrames = s.dispatched ++ (outputSendPending s).toList ∧
  s.drains = 0

theorem sysInv_init (reads : List ReadResult) (stop : Nat) : SysInv (initConn reads stop) := by
  refine ⟨rfl, rfl, rfl, rfl⟩

theorem sysInv_step (s : ConnSys) (l : Label) (h : SysInv s) : SysInv (step s l) := by
  obtain ⟨h1, h2, h3, h4⟩ := h
  cases l <;>
    simp only [step, readerReadStep, readerDrainStep, readerWaitExitStep, dispatcherRecvStep,
      dispatcherExitStep, senderRecvStep, senderWorkStep, senderExitStep, sendCallStep,
      drainEnabled_false, Bool.false_eq_true, if_false] <;>
    (try split) <;> (try split) <;> (try split) <;>
    (try simp_all [SysInv, outputSendPending])

theorem sysInv_run (s : ConnSys) (sch : List Label) (h : SysInv s) : SysInv (run s sch) := by
  induction sch generalizing s with
  | nil => exact h
  | cons l rest ih => exact ih (step s l) (sysInv_step s l h)

/-- Preservation of the Sender's exit state and of an undelivered pending
`Send`: once `ConsumeInput` has returned, no later step of any goroutine can
complete the rendezvous on `conn.input`, because `senderRecvStep` is the only
transition that consumes `pendingSend` and it requires the Sender to be at
its `select`. -/
theorem sender_done_pendingSend_stable (s : ConnSys) (f : Frame)
    (hd : s.senderPC = SenderPC.sDone) (hp : s.pendingSend = some f) (sch : List Label) :
    (run s sch).senderPC = SenderPC.sDone ∧ (run s sch).pendingSend = some f := by
  induction sch generalizing s with
  | nil => exact ⟨hd, hp⟩
  | cons l rest ih =>
      have hstep : (step s l).senderPC = SenderPC.sDone ∧ (step s l).pendingSend = some f := by
        cases l <;>
          simp only [step, readerReadStep, readerDrainStep, readerWaitExitStep,
            dispatcherRecvStep, dispatcherExitStep, senderRecvStep, senderWorkStep,
            senderExitStep, sendCallStep, drainEnabled_false, Bool.false_eq_true, if_false] <;>
          (try split) <;> (try split) <;> (try split) <;>
          simp_all
      exact ih (step s l) hstep.1 hstep.2

/-! ## Claims -/

/-- C1 (counterexample): the close callback is NOT invoked exactly once per
connection.  When `conn.conn.Read` fails with an error that is neither
`io.EOF` nor a `*net.OpError`, `LoopRead` logs the error and returns without
calling `handelReadClose`: the Reader goroutine is gone (`rDone`) and the
close callback was never invoked (`closes = []`), so the callback fires zero
times for this connection. -/
theorem close_callback_can_fire_zero_times :
    (run (initConn [ReadResult.otherErr] 0) [Label.readerRead]).closes = [] ∧
    (run (initConn [ReadResult.otherErr] 0) [Label.readerRead]).readerPC = ReaderPC.rDone ∧
    (run (initConn [ReadResult.otherErr] 0) [Label.readerRead]).waitCloseOps = 0 := by
  refine ⟨by decide, by decide, by decide⟩

/-- C1 (amended): over every schedule of the connection's goroutines,
`close(conn.waitConn)` is executed at most once, and the number of close
callback invocations equals the number of `close` operations — so the
callback fires at most once, and exactly once exactly when the close signal
fires. -/
theorem close_signal_at_most_once (reads : List ReadResult) (stop : Nat) (sch : List Label) :
    (run (initConn reads stop) sch).waitCloseOps ≤ 1 ∧
    (run (initConn reads stop) sch).closes.length =
      (run (initConn reads stop) sch).waitCloseOps := by
  obtain ⟨h1, h2, h3, h4⟩ := sysInv_run (initConn reads stop) sch (sysInv_init reads stop)
  refine ⟨?_, h2⟩
  rw [h1]
  split <;> omega

/-- C2: classification of read errors by `LoopRead`.  From the top of the
Reader's `select` with the close signal not yet fired: an `io.EOF` fires the
close signal and invokes the close callback with
`(isServer, isClient) = (false, true)` (closedByPeer); a `*net.OpError`
fires it with `(true, false)` (closedByServer); any other error leaves the
close signal unfired, invokes no callback, and the Reader exits. -/
theorem reader_error_classification (s : ConnSys) (rest : List ReadResult)
    (hpc : s.readerPC = ReaderPC.rSelect) (hw : s.waitConnClosed = false) :
    (s.reads = ReadResult.eof :: rest →
        (step s Label.readerRead).closes = s.closes ++ [(false, true)] ∧
        (step s Label.readerRead).waitConnClosed = true ∧
        (step s Label.readerRead).readerPC = ReaderPC.rDone) ∧
    (s.reads = ReadResult.opErr :: rest →
        (step s Label.readerRead).closes = s.closes ++ [(true, false)] ∧
        (step s Label.readerRead).waitConnClosed = true ∧
        (step s Label.readerRead).readerPC = ReaderPC.rDone) ∧
    (s.reads = ReadResult.otherErr :: rest →
        (step s Label.readerRead).closes = s.closes ∧
        (step s Label.readerRead).waitConnClosed = false ∧
        (step s Label.readerRead).waitCloseOps = s.waitCloseOps ∧
        (step s Label.readerRead).readerPC = ReaderPC.rDone) := by
  have hp : outputSendPending s = none := by
    simp [outputSendPending, hpc]
  refine ⟨?_, ?_, ?_⟩ <;> intro hr <;>
    simp [step, readerReadStep, hpc, hw, hp, hr]

/-- Witness for C2 at concrete states: a fresh connection whose single read
result is `io.EOF`, a `*net.OpError`, or another error. -/
theorem reader_error_classification_witness :
    (step (initConn [ReadResult.eof] 0) Label.readerRead).closes = [(false, true)] ∧
    (step (initConn [ReadResult.opErr] 0) Label.readerRead).closes = [(true, false)] ∧
    (step (initConn [ReadResult.otherErr] 0) Label.readerRead).closes = [] := by
  refine ⟨?_, ?_, ?_⟩
  · exact ((reader_error_classification (initConn [ReadResult.eof] 0) [] rfl rfl).1 rfl).1
  · exact ((reader_error_classification (initConn [ReadResult.opErr] 0) [] rfl rfl).2.1 rfl).1
  · exact ((reader_error_classification (initConn [ReadResult.otherErr] 0) [] rfl rfl).2.2 rfl).1

/-- C3: the router invokes exactly one handler exactly once per message.  If
the action code is registered, its route's handler runs once (with the
payload decoded when the route declares a prototype); if it is unregistered,
the default route 0 handler runs once and the miss is logged; a decode
failure on a route with a prototype logs and aborts the dispatch with no
handler invoked. -/
theorem router_dispatch (msg : Msg) :
    (routes msg.act = none →
        (onReceive msg).calls = [(0, false)] ∧ (onReceive msg).missLogged = true) ∧
    (∀ hv : RouteInfo, routes msg.act = some hv → hv.hasInfo = false →
        (onReceive msg).calls = [(hv.handlerId, false)] ∧
        (onReceive msg).missLogged = false) ∧
    (∀ hv : RouteInfo, routes msg.act = some hv → hv.hasInfo = true → msg.decodeOk = true →
        (onReceive msg).calls = [(hv.handlerId, true)]) ∧
    (∀ hv : RouteInfo, routes msg.act = some hv → hv.hasInfo = true → msg.decodeOk = false →
        (onReceive msg).calls = [] ∧ (onReceive msg).decodeErrLogged = true) := by
  have h0 : routes 0 = some ⟨0, false⟩ := rfl
  refine ⟨?_, ?_, ?_, ?_⟩
  · intro h
    simp [onReceive, h, h0]
  · intro hv h hinfo
    simp [onReceive, h, hinfo]
  · intro hv h hinfo hok
    simp [onReceive, h, hinfo, hok]
  · intro hv h hinfo hok
    simp [onReceive, h, hinfo, hok]

/-- Witness for C3: action 5 is unregistered (default handler runs once),
action 100 decodes and runs the shutdown handler once, a failed decode on
action 100 invokes nothing, and action 0 runs the default handler once. -/
theorem router_dispatch_witness :
    (onReceive ⟨5, true⟩).calls = [(0, false)] ∧
    (onReceive ⟨100, true⟩).calls = [(100, true)] ∧
    (onReceive ⟨100, false⟩).calls = [] ∧
    (onReceive ⟨0, true⟩).calls = [(0, false)] := by
  refine ⟨?_, ?_, ?_, ?_⟩
  · exact ((router_dispatch ⟨5, true⟩).1 (by decide)).1
  · exact (router_dispatch ⟨100, true⟩).2.2.1 ⟨100, true⟩ (by decide) rfl rfl
  · exact ((router_dispatch ⟨100, false⟩).2.2.2 ⟨100, true⟩ (by decide) rfl rfl).1
  · exact ((router_dispatch ⟨0, true⟩).2.1 ⟨0, false⟩ (by decide) rfl).1

/-- C4 (counterexample): connection ids are NOT never-reused and NOT
strictly increasing over every sequence of calls.  `lastId` is a Go `uint32`,
so the counter wraps: call 0 returns id 1, call 4294967295 returns id 0
(smaller than the 4294967295 returned just before), and call 4294967296
returns id 1 again — a reuse. -/
theorem conn_id_wraps_and_reuses :
    idAt 0 = 1 ∧ idAt 4294967296 = 1 ∧
    idAt 4294967294 = 4294967295 ∧ idAt 4294967295 = 0 := by
  refine ⟨?_, ?_, ?_, ?_⟩ <;> simp [idAt_eq]

/-- C4 (amended): within the first `2^32` calls the allocator behaves as
claimed: ids are pairwise distinct for the first `2^32` allocations and
strictly increasing for the first `2^32 - 1`; beyond that the 32-bit counter
wraps and ids repeat. -/
theorem conn_ids_distinct_below_wrap (i j : Nat) (hij : i < j) (hj : j ≤ 4294967295) :
    idAt i ≠ idAt j ∧ (j < 4294967295 → idAt i < idAt j) := by
  rw [idAt_eq, idAt_eq]
  constructor
  · omega
  · intro h
    omega

/-- Witness for C4 (amended) at `i = 0`, `j = 1`. -/
theorem conn_ids_distinct_below_wrap_witness : idAt 0 ≠ idAt 1 ∧ idAt 0 < idAt 1 :=
  ⟨(conn_ids_distinct_below_wrap 0 1 (by decide) (by decide)).1,
   (conn_ids_distinct_below_wrap 0 1 (by decide) (by decide)).2 (by decide)⟩

/-- C5: `Shutdown()` is idempotent.  Any number of further calls after the
first is a no-op leaving the state unchanged, and on a running server the
listener and every registered connection's socket are closed exactly once no
matter how many times `Shutdown` is called. -/
theorem shutdown_idempotent_closes_once (l : tcpServer) (n : Nat)
    (h0 : l.stop = 0) (hl : l.listenerCloseCount = 0)
    (hc : ∀ c ∈ l.conns, c.closeCount = 0) :
    Shutdown^[n] (Shutdown l) = Shutdown l ∧
    (Shutdown^[n] (Shutdown l)).listenerCloseCount = 1 ∧
    ∀ c ∈ (Shutdown^[n] (Shutdown l)).conns, c.closeCount = 1 := by
  have hfix : Shutdown^[n] (Shutdown l) = Shutdown l :=
    Function.iterate_fixed (Shutdown_Shutdown l) n
  refine ⟨hfix, ?_, ?_⟩
  · rw [hfix]
    simp [Shutdown, h0, hl]
  · rw [hfix]
    intro c hcmem
    simp only [Shutdown, h0, ne_eq, not_true_eq_false, if_false, List.mem_map] at hcmem
    obtain ⟨a, ha, hac⟩ := hcmem
    subst hac
    simp [hc a ha]

/-- Witness for C5 on a server with one registered connection, with two
further `Shutdown` calls after the first. -/
theorem shutdown_idempotent_closes_once_witness :
    Shutdown^[2] (Shutdown { NewTcpServer "989" with conns := [⟨1, 0⟩] }) =
      Shutdown { NewTcpServer "989" with conns := [⟨1, 0⟩] } ∧
    (Shutdown^[2] (Shutdown { NewTcpServer "989" with conns := [⟨1, 0⟩] })).listenerCloseCount
      = 1 ∧
    ∀ c ∈ (Shutdown^[2] (Shutdown { NewTcpServer "989" with conns := [⟨1, 0⟩] })).conns,
      c.closeCount = 1 :=
  shutdown_idempotent_closes_once { NewTcpServer "989" with conns := [⟨1, 0⟩] } 2
    rfl rfl (by decide)

/-- C6 (counterexample): the shutdown phase is not a tri-state machine in the
code.  The `stop` field starts at 0 (RUNNING) and the first `Shutdown` call
sets it directly to 2; the value 1 — a STOPPING state distinct from STOPPED —
never occurs, so the claimed once-per-lifetime RUNNING→STOPPING transition
(as a step to the middle state of three) never happens. -/
theorem shutdown_phase_skips_stopping :
    (NewTcpServer "989").stop = 0 ∧
    (Shutdown (NewTcpServer "989")).stop = 2 ∧
    (Shutdown (Shutdown (NewTcpServer "989"))).stop = 2 := by
  refine ⟨rfl, ?_, ?_⟩ <;> simp [Shutdown, NewTcpServer]

/-- C6 (amended): the `stop` phase field is monotonic and two-valued: it only
ever advances, a `Shutdown` call either performs the single 0 → 2 transition
or is a no-op, the transition happens at most once (the first caller performs
it, under the server lock), and along any sequence of `Shutdown` calls on a
fresh server the field only takes the values 0 and 2 — never 1. -/
theorem shutdown_phase_monotonic_two_valued (l : tcpServer) (n : Nat) :
    l.stop ≤ (Shutdown l).stop ∧
    ((Shutdown l).stop = 2 ∨ Shutdown l = l) ∧
    Shutdown (Shutdown l) = Shutdown l ∧
    ((Shutdown^[n] (NewTcpServer "989")).stop = 0 ∨
      (Shutdown^[n] (NewTcpServer "989")).stop = 2) := by
  refine ⟨?_, ?_, Shutdown_Shutdown l, ?_⟩
  · by_cases h : l.stop = 0
    · simp [Shutdown, h]
    · rw [Shutdown_eq_of_stopped l h]
  · by_cases h : l.stop = 0
    · left
      simp [Shutdown, h]
    · right
      exact Shutdown_eq_of_stopped l h
  · induction n with
    | zero => exact Or.inl rfl
    | succ n ih =>
        rw [Function.iterate_succ_apply']
        rcases ih with h | h
        · right
          simp [Shutdown, h]
        · right
          rw [Shutdown_eq_of_stopped _ (by rw [h]; exact two_ne_zero)]
          exact h

/-- C7: in `ConsumeInput`, when a queued frame is received while the shutdown
phase is nonzero, the stopped branch takes the server lock, skips the write,
and `continue`s the loop without `Unlock`, leaving the lock held. -/
theorem consume_input_stopped_branch_keeps_lock (s : ConnSys) (f : Frame)
    (hpc : s.senderPC = SenderPC.sGotMsg f) (hl : s.lockHeld = false) (hs : s.stop ≠ 0) :
    (step s Label.senderWork).lockHeld = true ∧
    (step s Label.senderWork).senderPC = SenderPC.sSelect ∧
    (step s Label.senderWork).writes = s.writes := by
  simp [step, senderWorkStep, hpc, hl, hs]

/-- Witness for C7: a connection on a stopped server (`stop = 2`) whose
Sender has just dequeued the frame `[7]`. -/
theorem consume_input_stopped_branch_keeps_lock_witness :
    (step (run (initConn [] 2) [Label.sendCall [7], Label.senderRecv])
        Label.senderWork).lockHeld = true ∧
    (step (run (initConn [] 2) [Label.sendCall [7], Label.senderRecv])
        Label.senderWork).senderPC = SenderPC.sSelect ∧
    (step (run (initConn [] 2) [Label.sendCall [7], Label.senderRecv])
        Label.senderWork).writes =
      (run (initConn [] 2) [Label.sendCall [7], Label.senderRecv]).writes :=
  consume_input_stopped_branch_keeps_lock
    (run (initConn [] 2) [Label.sendCall [7], Label.senderRecv]) [7]
    (by decide) (by decide) (by decide)

/-- C8: the Reader only ever produces into the inbound queue.  The
`case <-conn.output:` receive in `LoopRead`'s `select` is never enabled —
the Reader is the only goroutine that sends on `output`, and an unbuffered
receive can only rendezvous with another goroutine's send — so the Reader
never consumes a frame, and over every schedule the frames read so far are
exactly the frames the Dispatcher has dispatched, in order, plus at most the
one frame still in flight in the Reader's blocked send. -/
theorem reader_never_consumes_inbound (reads : List ReadResult) (stop : Nat)
    (sch : List Label) :
    drainEnabled (run (initConn reads stop) sch) = false ∧
    (run (initConn reads stop) sch).drains = 0 ∧
    (run (initConn reads stop) sch).readFrames =
      (run (initConn reads stop) sch).dispatched ++
        (outputSendPending (run (initConn reads stop) sch)).toList := by
  obtain ⟨h1, h2, h3, h4⟩ := sysInv_run (initConn reads stop) sch (sysInv_init reads stop)
  exact ⟨drainEnabled_false _, h4, h3⟩

/-- C9: refutation of the non-blocking claim at the code's failing input.
After the peer closes (`io.EOF` fires the close signal) and `ConsumeInput`
exits via `<-conn.waitConn`, a caller entering `Send(conn, [7])` blocks in
the unbuffered `conn.input <- v`: under EVERY subsequent schedule the pending
send is never delivered, because the channel's only receiver has returned —
the caller deadlocks forever. -/
theorem send_after_close_never_delivered (sch : List Label) :
    (run (run (initConn [ReadResult.eof] 0)
        [Label.readerRead, Label.senderExit, Label.sendCall [7]]) sch).pendingSend
      = some [7] ∧
    (run (run (initConn [ReadResult.eof] 0)
        [Label.readerRead, Label.senderExit, Label.sendCall [7]]) sch).senderPC
      = SenderPC.sDone := by
  have h := sender_done_pendingSend_stable
      (run (initConn [ReadResult.eof] 0) [Label.readerRead, Label.senderExit, Label.sendCall [7]])
      [7] (by decide) (by decide) sch
  exact ⟨h.2, h.1⟩

/-- C10: a server fresh from `NewTcpServer` on which `OnReceive`/`OnClose`
were never called has non-nil no-op callbacks in both slots, so the receive
path and the close path each invoke a no-op (emitting nothing) and never
dereference a nil callback. -/
theorem new_server_callbacks_nonnil_noop (port : String) (connId : Nat) (bt : List Nat)
    (isServer isClient : Bool) :
    (NewTcpServer port).closeCallback.isSome = true ∧
    (NewTcpServer port).receiveCallback.isSome = true ∧
    handelReceiveCB (NewTcpServer port) connId bt = some [] ∧
    handelReadCloseCB (NewTcpServer port) connId isServer isClient = some [] :=
  ⟨rfl, rfl, rfl, rfl⟩

end TcpRepo
